import Mathlib

/-!
Verification of the mcp-client-tx orchestration core: a shallow embedding of
`src/chat_openai.py` (the ModelAdapter), `src/Agent.py` (the agent loop and
tool routing), `src/mcp_client.py` (the websocket protocol client) and
`src/MCPClient.py` (the stdio protocol client), together with theorems
settling the specification claims about them.

External collaborators (the OpenAI completion endpoint, `json.loads`, the
websocket channel, the provider process) are modelled as explicit outcome
parameters: each embedded operation takes the outcome the collaborator would
produce and computes the state transition the Python code performs with it.
-/

namespace MCPTx

/-! ## Embedding of chat_openai.py -/

/-- Embeds the inner dict of a tool call: tool_call["function"]
with fields name and arguments (the raw argument string). -/
structure ToolCallFunction where
  name : String
  arguments : String
deriving DecidableEq, Repr

/-- Embeds one entry of response["tool_calls"]: an id plus a function
name/raw-arguments pair, as built in ChatOpenAI.chat lines 152-160. -/
structure ToolCall where
  id : String
  function : ToolCallFunction
deriving DecidableEq, Repr

/-- Embeds one message dict of ChatOpenAI.messages: a role, a content
string, an optional tool_call_id (tool messages only) and an optional
ordered tool-call list (assistant messages only). -/
structure Message where
  role : String
  content : String
  tool_call_id : Option String := none
  tool_calls : List ToolCall := []
deriving DecidableEq, Repr

/-- Embeds the return value of ChatOpenAI.chat: result["content"] (which is
response_message.content and may be None) and result["tool_calls"]. -/
structure ChatResponse where
  content : Option String
  tool_calls : List ToolCall
deriving DecidableEq, Repr

/-- Embeds the mutable state of a ChatOpenAI instance that the claims
concern: the ordered message history self.messages. -/
structure ChatState where
  messages : List Message
deriving DecidableEq, Repr

/-- Embeds the outcome of the external call
self.async_client.chat.completions.create in ChatOpenAI.chat: either a
response message carrying optional content and a (possibly empty) tool-call
list, or a raised exception with text e. -/
inductive ApiOutcome where
  | ok (content : Option String) (tool_calls : List ToolCall)
  | fail (e : String)
deriving DecidableEq, Repr

/-- Embeds the user message dict appended by ChatOpenAI.chat when a prompt
is supplied (line 112). -/
def userMsg (prompt : String) : Message :=
  { role := "user", content := prompt }

/-- Embeds ChatOpenAI.append_tool_result (lines 87-98): appends one tool
message with the given tool_call_id and result text to self.messages. -/
def appendToolResult (st : ChatState) (tool_call_id : String) (result : String) : ChatState :=
  { st with messages := st.messages ++
      [{ role := "tool", content := result, tool_call_id := some tool_call_id }] }

/-- Embeds ChatOpenAI.chat (lines 100-165). If a prompt is supplied the
user message is appended first. On API success the assistant message (content
or "", plus the tool-call list when nonempty) is appended to history and the
result dict is returned; on an API exception e nothing further is appended
and the dict with content "Error: " ++ e and empty tool_calls is returned. -/
def chat (st : ChatState) (prompt : Option String) (outcome : ApiOutcome) :
    ChatState × ChatResponse :=
  let st1 : ChatState :=
    match prompt with
    | some p => { st with messages := st.messages ++ [userMsg p] }
    | none => st
  match outcome with
  | ApiOutcome.ok content tcs =>
      ({ st1 with messages := st1.messages ++
          [{ role := "assistant", content := content.getD "", tool_calls := tcs }] },
       { content := content, tool_calls := tcs })
  | ApiOutcome.fail e =>
      (st1, { content := some ("Error: " ++ e), tool_calls := [] })

/-! ## Embedding of Agent.py -/

/-- Embeds the outcome of MCPClient.call_tool as seen by the agent loop:
either a result (already stringified, as by str(tool_result) on line 91 of
Agent.py) or a raised exception with text e. -/
inductive ToolOutcome where
  | ok (result : String)
  | exn (e : String)
deriving DecidableEq, Repr

/-- Embeds one registered MCP client as the agent sees it: its name, the
cached tool-name catalog returned by get_tools(), and the behaviour of
call_tool on (tool name, parsed arguments). -/
structure AgentClient where
  name : String
  tools : List String
  callTool : String → String → ToolOutcome

/-- Embeds the collaborator json.loads applied to the raw argument string
(Agent.py line 88): either the parsed arguments or a JSONDecodeError text. -/
def ParseFn : Type := String → Except String String

/-- Records one actual call_tool dispatch issued by the agent loop:
which client was invoked, with which tool name and parsed arguments. -/
structure DispatchEvent where
  client : String
  tool : String
  args : String
deriving DecidableEq, Repr

/-- Embeds the client-scan loop of Agent.invoke (lines 76-81): the first
registered client whose catalog contains the requested tool name, scanning
in registration order. -/
def findClient (clients : List AgentClient) (toolName : String) : Option AgentClient :=
  clients.find? (fun c => c.tools.any (fun t => t = toolName))

/-- Embeds the per-tool-call body of Agent.invoke (lines 76-99): route to
the first matching client; on a match parse the arguments and dispatch,
converting a JSONDecodeError into an "Invalid JSON arguments" tool result and
any call_tool exception into an "Error: " tool result; on no match append
"Tool not found". Returns the updated chat state and the dispatches issued. -/
def handleToolCall (parse : ParseFn) (clients : List AgentClient)
    (st : ChatState) (tc : ToolCall) : ChatState × List DispatchEvent :=
  match findClient clients tc.function.name with
  | some client =>
      match parse tc.function.arguments with
      | Except.error e =>
          (appendToolResult st tc.id ("Invalid JSON arguments: " ++ e), [])
      | Except.ok args =>
          match client.callTool tc.function.name args with
          | ToolOutcome.ok result =>
              (appendToolResult st tc.id result,
               [{ client := client.name, tool := tc.function.name, args := args }])
          | ToolOutcome.exn e =>
              (appendToolResult st tc.id ("Error: " ++ e),
               [{ client := client.name, tool := tc.function.name, args := args }])
  | none => (appendToolResult st tc.id "Tool not found", [])

/-- Embeds the for-loop over response["tool_calls"] in Agent.invoke
(lines 75-99): the batch is processed sequentially in list order, each call
appending its tool result before the next model invocation. -/
def processBatch (parse : ParseFn) (clients : List AgentClient)
    (st : ChatState) (tcs : List ToolCall) : ChatState × List DispatchEvent :=
  tcs.foldl
    (fun acc tc =>
      let next := handleToolCall parse clients acc.1 tc
      (next.1, acc.2 ++ next.2))
    (st, [])

/-- Collects what one run of the while-loop of Agent.invoke produced: the
final chat state, the returned response["content"], the call_tool dispatches
issued, and the model responses received in order (the trace). -/
structure LoopResult where
  finalState : ChatState
  answer : Option String
  events : List DispatchEvent
  responses : List ChatResponse
deriving Repr

/-- Embeds the while-loop of Agent.invoke (lines 73-102), driven by the
scripted outcomes of the remaining model invocations. A zero-tool-call
response ends the loop with its content; a response with tool calls has its
batch processed and the model re-invoked on the next scripted outcome.
Returns none when the script is exhausted before the loop ends. -/
def invokeLoop (parse : ParseFn) (clients : List AgentClient) :
    List ApiOutcome → ChatState → ChatResponse → Option LoopResult
  | script, st, resp =>
    if resp.tool_calls.length > 0 then
      match script with
      | [] => none
      | o :: rest =>
          let batch := processBatch parse clients st resp.tool_calls
          let next := chat batch.1 none o
          match invokeLoop parse clients rest next.1 next.2 with
          | none => none
          | some r =>
              some { r with events := batch.2 ++ r.events,
                            responses := resp :: r.responses }
    else
      some { finalState := st, answer := resp.content, events := [],
             responses := [resp] }

/-- Embeds Agent.invoke (lines 61-102): the initial model call with the
user prompt, then the tool-dispatch loop. -/
def invoke (parse : ParseFn) (clients : List AgentClient)
    (script : List ApiOutcome) (st : ChatState) (prompt : String) : Option LoopResult :=
  match script with
  | [] => none
  | o :: rest =>
      let first := chat st (some prompt) o
      invokeLoop parse clients rest first.1 first.2

/-! ## Embedding of mcp_client.py (websocket protocol client) -/

/-- Embeds the wire messages of the protocol (mcp_client.py lines 89-94,
139-144, 166-169, 181-183 and the dispatch branches of _message_handler). -/
inductive WireMsg where
  | tool_call (request_id : String) (tool_name : String) (parameters : String)
  | tool_response (request_id : String) (result : String)
  | stream_tool_call (stream_id : String) (tool_name : String) (parameters : String)
  | stream_data (stream_id : String) (data : String)
  | stream_end (stream_id : String)
  | cancel_stream (stream_id : String)
  | error (request_id : String) (errorText : String)
  | heartbeat
  | heartbeat_ack
deriving DecidableEq, Repr

/-- Embeds an asyncio.Future held in response_futures: pending until
set_result or set_exception makes it done. -/
inductive Future where
  | pending
  | resolvedF (v : String)
  | rejectedF (e : String)
deriving DecidableEq, Repr

/-- Looks a key up in an association list, embedding a Python dict read. -/
def assocGet {α : Type} : List (String × α) → String → Option α
  | [], _ => none
  | (k1, v1) :: rest, k => if k1 = k then some v1 else assocGet rest k

/-- Sets a key in an association list, embedding a Python dict assignment
(keys are unique, so the first binding is replaced or a new one appended). -/
def assocSet {α : Type} : List (String × α) → String → α → List (String × α)
  | [], k, v => [(k, v)]
  | (k1, v1) :: rest, k, v =>
      if k1 = k then (k, v) :: rest else (k1, v1) :: assocSet rest k v

/-- Removes a key from an association list, embedding dict.pop(k, None). -/
def assocRemove {α : Type} : List (String × α) → String → List (String × α)
  | [], _ => []
  | (k1, v1) :: rest, k => if k1 = k then rest else (k1, v1) :: assocRemove rest k

/-- Embeds the mutable state of a mcp_client.MCPClient: connection flag,
channel presence, the pending-request table response_futures, the
stream-handler table (handlers abstracted as tokens), and the heartbeat
task. The ghost fields sent and delivered record the frames written to the
websocket and the chunks handed to stream handlers, which the Python code
performs as effects. -/
structure WSState where
  is_connected : Bool
  websocket : Bool
  response_futures : List (String × Future)
  stream_handlers : List (String × Nat)
  heartbeat_task : Bool
  sent : List WireMsg
  delivered : List (String × String)
deriving DecidableEq, Repr

/-- Embeds a freshly constructed mcp_client.MCPClient (lines 14-26). -/
def initialWSState : WSState :=
  { is_connected := false, websocket := false, response_futures := [],
    stream_handlers := [], heartbeat_task := false, sent := [], delivered := [] }

/-- Embeds the outcome of the external websockets.connect call. -/
inductive ConnectOutcome where
  | ok
  | fail (e : String)
deriving DecidableEq, Repr

/-- Embeds the outcome of awaiting the registered future under
asyncio.wait_for in call_tool: resolved by a tool_response, rejected by an
error frame, or the client-side deadline expiring first. -/
inductive AwaitOutcome where
  | resolved (v : String)
  | rejected (e : String)
  | timedOut
deriving DecidableEq, Repr

/-- Embeds the error taxonomy raised by the websocket client: the
ConnectionError of call_tool line 83, the TimeoutError of line 110, and a
provider-reported failure surfaced via future.set_exception. -/
inductive MCPError where
  | notConnected (msg : String)
  | toolTimeout (tool_name : String)
  | toolError (e : String)
deriving DecidableEq, Repr

namespace WS

/-- Embeds MCPClient.connect (mcp_client.py lines 28-49): on success the
channel is open, the connection flag set and the heartbeat task started, and
connect returns True; on a channel failure the exception is caught, the flag
cleared and connect returns False. No handshake or catalog retrieval occurs
on either path. -/
def connect (st : WSState) (o : ConnectOutcome) : WSState × Bool :=
  match o with
  | ConnectOutcome.ok =>
      ({ st with websocket := true, is_connected := true, heartbeat_task := true }, true)
  | ConnectOutcome.fail _ =>
      ({ st with is_connected := false }, false)

/-- Embeds MCPClient.disconnect (lines 51-62): when connected with a live
channel, cancels the heartbeat task, closes and clears the channel and
clears the connection flag; otherwise does nothing. The pending-request
table and stream-handler table are not touched. -/
def disconnect (st : WSState) : WSState :=
  if st.is_connected && st.websocket then
    { st with heartbeat_task := false, websocket := false, is_connected := false }
  else st

/-- Embeds the first half of MCPClient.call_tool (lines 82-101): the
connection check, registration of a fresh pending future under request_id,
and the send of the tool_call frame. -/
def callToolSend (st : WSState) (request_id : String) (tool_name : String)
    (parameters : String) : WSState × Except MCPError Unit :=
  if !(st.is_connected && st.websocket) then
    (st, Except.error (MCPError.notConnected "未连接到MCP服务器"))
  else
    ({ st with
        response_futures := assocSet st.response_futures request_id Future.pending,
        sent := st.sent ++ [WireMsg.tool_call request_id tool_name parameters] },
     Except.ok ())

/-- Embeds the second half of MCPClient.call_tool (lines 103-113): awaiting
the future under the timeout. On every outcome the finally block removes the
request_id from response_futures; resolution returns the result, a provider
error propagates as ToolError, expiry raises ToolTimeout. -/
def callToolFinish (st : WSState) (request_id : String) (tool_name : String)
    (o : AwaitOutcome) : WSState × Except MCPError String :=
  let st1 := { st with response_futures := assocRemove st.response_futures request_id }
  match o with
  | AwaitOutcome.resolved v => (st1, Except.ok v)
  | AwaitOutcome.rejected e => (st1, Except.error (MCPError.toolError e))
  | AwaitOutcome.timedOut => (st1, Except.error (MCPError.toolTimeout tool_name))

/-- Embeds MCPClient.call_tool (lines 64-113) as one step: the send half
followed, when it succeeded, by awaiting the outcome. -/
def call_tool (st : WSState) (request_id : String) (tool_name : String)
    (parameters : String) (o : AwaitOutcome) : WSState × Except MCPError String :=
  match callToolSend st request_id tool_name parameters with
  | (st1, Except.error e) => (st1, Except.error e)
  | (st1, Except.ok _) => callToolFinish st1 request_id tool_name o

/-- Embeds MCPClient.stream_tool_calls (lines 115-151): connection check,
registration of the handler under the fresh stream_id, send of the
stream_tool_call frame, returning the stream id. -/
def stream_tool_calls (st : WSState) (stream_id : String) (tool_name : String)
    (parameters : String) (handler : Nat) : WSState × Except MCPError String :=
  if !(st.is_connected && st.websocket) then
    (st, Except.error (MCPError.notConnected "未连接到MCP服务器"))
  else
    ({ st with
        stream_handlers := assocSet st.stream_handlers stream_id handler,
        sent := st.sent ++ [WireMsg.stream_tool_call stream_id tool_name parameters] },
     Except.ok stream_id)

/-- Embeds MCPClient.cancel_stream (lines 153-176): when not connected it
returns False and does nothing; when connected it sends the cancel_stream
frame, then removes the local handler and returns True. -/
def cancel_stream (st : WSState) (stream_id : String) : WSState × Bool :=
  if !(st.is_connected && st.websocket) then (st, false)
  else
    ({ st with
        sent := st.sent ++ [WireMsg.cancel_stream stream_id],
        stream_handlers := assocRemove st.stream_handlers stream_id },
     true)

/-- Embeds one iteration body of MCPClient._message_handler (lines 192-243)
on a received frame: tool_response resolves a matching pending future (a
missing or done future is ignored), stream_data is delivered to a registered
handler (otherwise dropped), stream_end removes the handler, error rejects a
matching pending future, heartbeat_ack and every other frame do nothing. -/
def handleMessage (st : WSState) (msg : WireMsg) : WSState :=
  match msg with
  | WireMsg.tool_response request_id result =>
      match assocGet st.response_futures request_id with
      | some Future.pending =>
          { st with response_futures :=
              assocSet st.response_futures request_id (Future.resolvedF result) }
      | _ => st
  | WireMsg.stream_data stream_id data =>
      match assocGet st.stream_handlers stream_id with
      | some _ => { st with delivered := st.delivered ++ [(stream_id, data)] }
      | none => st
  | WireMsg.stream_end stream_id =>
      { st with stream_handlers := assocRemove st.stream_handlers stream_id }
  | WireMsg.error request_id e =>
      match assocGet st.response_futures request_id with
      | some Future.pending =>
          { st with response_futures :=
              assocSet st.response_futures request_id (Future.rejectedF e) }
      | _ => st
  | _ => st

end WS

/-! ## Embedding of MCPClient.py (stdio protocol client) -/

/-- Embeds the state of a MCPClient.py client that the claims concern:
whether an AsyncExitStack (and with it the stdio session) is held, and the
cached tool catalog. -/
structure StdioState where
  exit_stack : Bool
  tools : List String
deriving DecidableEq, Repr

/-- Embeds the outcome of the external session setup performed inside
connect_to_server: spawning the server, initializing the session and
listing its tools either succeeds with a catalog or raises e. -/
inductive StdioOutcome where
  | ok (catalog : List String)
  | fail (e : String)
deriving DecidableEq, Repr

namespace Stdio

/-- Embeds MCPClient.close (MCPClient.py lines 49-59): closes and drops the
exit stack when one is held. -/
def close (st : StdioState) : StdioState :=
  if st.exit_stack then { st with exit_stack := false } else st

/-- Embeds MCPClient.connect_to_server (lines 85-120): ensures an exit
stack, then performs the session setup. On success the retrieved catalog is
cached in self.tools; on failure the exit stack is closed for cleanup and
the exception re-raised to the caller. -/
def connect_to_server (st : StdioState) (o : StdioOutcome) :
    StdioState × Except String Unit :=
  let st1 := if st.exit_stack then st else { st with exit_stack := true }
  match o with
  | StdioOutcome.ok catalog => ({ st1 with tools := catalog }, Except.ok ())
  | StdioOutcome.fail e => ({ st1 with exit_stack := false }, Except.error e)

/-- Embeds MCPClient.init (lines 61-69): closes any prior session, creates
a fresh exit stack and connects to the server. -/
def init (st : StdioState) (o : StdioOutcome) : StdioState × Except String Unit :=
  let st1 := if st.exit_stack then close st else st
  connect_to_server { st1 with exit_stack := true } o

end Stdio

/-! ## Helper lemmas about the agent loop -/

/-- Gives the tool-result text Agent.invoke appends for one tool call, as a
function of the routing, parse and dispatch outcomes alone. -/
def toolResultText (parse : ParseFn) (clients : List AgentClient) (tc : ToolCall) : String :=
  match findClient clients tc.function.name with
  | some client =>
      match parse tc.function.arguments with
      | Except.error e => "Invalid JSON arguments: " ++ e
      | Except.ok args =>
          match client.callTool tc.function.name args with
          | ToolOutcome.ok result => result
          | ToolOutcome.exn e => "Error: " ++ e
  | none => "Tool not found"

/-- Gives the call_tool dispatches Agent.invoke issues for one tool call:
exactly one to the routed client when routing and parsing succeed, none
otherwise. -/
def dispatchesFor (parse : ParseFn) (clients : List AgentClient) (tc : ToolCall) :
    List DispatchEvent :=
  match findClient clients tc.function.name with
  | some client =>
      match parse tc.function.arguments with
      | Except.error _ => []
      | Except.ok args => [{ client := client.name, tool := tc.function.name, args := args }]
  | none => []

/-- Gives the tool message handleToolCall appends for one tool call. -/
def toolMsgFor (parse : ParseFn) (clients : List AgentClient) (tc : ToolCall) : Message :=
  { role := "tool", content := toolResultText parse clients tc, tool_call_id := some tc.id }

theorem handleToolCall_eq (parse : ParseFn) (clients : List AgentClient)
    (st : ChatState) (tc : ToolCall) :
    handleToolCall parse clients st tc =
      (appendToolResult st tc.id (toolResultText parse clients tc),
       dispatchesFor parse clients tc) := by
  unfold handleToolCall toolResultText dispatchesFor
  rcases hf : findClient clients tc.function.name with _ | c
  · rfl
  · rcases hp : parse tc.function.arguments with e | args
    · rfl
    · rcases hc : c.callTool tc.function.name args with r | e <;> simp [hc]

theorem processBatch_eq (parse : ParseFn) (clients : List AgentClient)
    (tcs : List ToolCall) : ∀ (st : ChatState) (evs : List DispatchEvent),
      List.foldl (fun acc tc =>
          let next := handleToolCall parse clients acc.1 tc
          (next.1, acc.2 ++ next.2)) (st, evs) tcs =
        ({ messages := st.messages ++ tcs.map (toolMsgFor parse clients) },
         evs ++ (tcs.map (dispatchesFor parse clients)).flatten) := by
  induction tcs with
  | nil => intro st evs; simp
  | cons tc tcs ih =>
      intro st evs
      rw [List.foldl_cons]
      show List.foldl _ ((handleToolCall parse clients st tc).1,
        evs ++ (handleToolCall parse clients st tc).2) tcs = _
      rw [handleToolCall_eq, ih]
      simp [appendToolResult, toolMsgFor]

theorem processBatch_messages (parse : ParseFn) (clients : List AgentClient)
    (st : ChatState) (tcs : List ToolCall) :
    (processBatch parse clients st tcs).1.messages =
      st.messages ++ tcs.map (toolMsgFor parse clients) := by
  unfold processBatch
  rw [processBatch_eq]

theorem processBatch_events (parse : ParseFn) (clients : List AgentClient)
    (st : ChatState) (tcs : List ToolCall) :
    (processBatch parse clients st tcs).2 =
      (tcs.map (dispatchesFor parse clients)).flatten := by
  unfold processBatch
  rw [processBatch_eq]
  simp

/-! ## Witness fixtures: concrete clients, parse functions and tool calls -/

/-- Gives a concrete argument parser for witnesses: the raw string "bad"
fails to parse, everything else parses to itself. -/
def parseW : ParseFn := fun s =>
  if s = "bad" then Except.error "Expecting value" else Except.ok s

/-- Gives a concrete registered client A whose catalog holds only alpha. -/
def clientA : AgentClient :=
  { name := "A", tools := ["alpha"], callTool := fun _ _ => ToolOutcome.ok "okA" }

/-- Gives a concrete registered client B whose catalog holds searchB and
boom; calling boom raises, calling searchB succeeds. -/
def clientB : AgentClient :=
  { name := "B", tools := ["searchB", "boom"],
    callTool := fun n a =>
      if n = "boom" then ToolOutcome.exn "kaboom"
      else ToolOutcome.ok ("B:" ++ n ++ ":" ++ a) }

/-- Gives a tool call that routes to client A and succeeds. -/
def tcOk : ToolCall := { id := "t1", function := { name := "alpha", arguments := "argone" } }

/-- Gives a tool call that routes to client B and raises in dispatch. -/
def tcExn : ToolCall := { id := "t2", function := { name := "boom", arguments := "argtwo" } }

/-- Gives a tool call whose raw arguments fail to parse. -/
def tcBad : ToolCall := { id := "t3", function := { name := "searchB", arguments := "bad" } }

/-- Gives a tool call whose name is in no registered catalog. -/
def tcMissing : ToolCall := { id := "t4", function := { name := "nosuch", arguments := "argf" } }

/-- Gives a tool call that routes to client B and parses cleanly. -/
def tcB : ToolCall := { id := "t9", function := { name := "searchB", arguments := "argsB" } }

/-- Gives a concrete batch exercising the success, dispatch-exception,
parse-failure and no-client branches at once. -/
def tcsW : List ToolCall := [tcOk, tcExn, tcBad, tcMissing]

/-- Gives a concrete starting history for witnesses. -/
def stW : ChatState := { messages := [userMsg "hello"] }

/-! ## Claim C1 -/

/-- Claim C1: for every model response whose tool_calls list has length
N > 0, the agent loop appends exactly N tool-result messages to the
conversation history before the next model invocation, one per tool call in
the batch (the i-th appended message is a tool message answering the i-th
call's id), regardless of whether each call succeeds, raises a dispatch
exception, fails argument parsing, or matches no registered client. -/
theorem C1_batch_appends_exactly_one_result_per_call
    (parse : ParseFn) (clients : List AgentClient) (st : ChatState)
    (tcs : List ToolCall) (hN : 0 < tcs.length) :
    ((processBatch parse clients st tcs).1.messages.take st.messages.length
        = st.messages) ∧
    ((processBatch parse clients st tcs).1.messages.drop st.messages.length).length
        = tcs.length ∧
    (((processBatch parse clients st tcs).1.messages.drop st.messages.length).map
        Message.role = List.replicate tcs.length "tool") ∧
    (((processBatch parse clients st tcs).1.messages.drop st.messages.length).map
        Message.tool_call_id = tcs.map (fun tc => some tc.id)) := by
  rw [processBatch_messages]
  refine ⟨?_, ?_, ?_, ?_⟩
  · rw [List.take_left]
  · rw [List.drop_left]; simp
  · rw [List.drop_left]
    have h : ∀ tc : ToolCall, (toolMsgFor parse clients tc).role = "tool" :=
      fun tc => rfl
    calc (tcs.map (toolMsgFor parse clients)).map Message.role
        = tcs.map (fun tc => (toolMsgFor parse clients tc).role) := by
          rw [List.map_map]; rfl
      _ = tcs.map (fun _ => "tool") := by simp [h]
      _ = List.replicate tcs.length "tool" := by
          induction tcs with
          | nil => rfl
          | cons a l ih => simp [List.replicate, ih]
  · rw [List.drop_left]
    rw [List.map_map]
    rfl

/-- Applies C1 to the concrete four-call batch tcsW, whose calls exercise
the success, dispatch-exception, parse-failure and no-client branches. -/
theorem C1_witness :
    0 < tcsW.length ∧
    (((processBatch parseW [clientA, clientB] stW tcsW).1.messages.take
        stW.messages.length = stW.messages) ∧
     ((processBatch parseW [clientA, clientB] stW tcsW).1.messages.drop
        stW.messages.length).length = tcsW.length ∧
     (((processBatch parseW [clientA, clientB] stW tcsW).1.messages.drop
        stW.messages.length).map Message.role
          = List.replicate tcsW.length "tool") ∧
     (((processBatch parseW [clientA, clientB] stW tcsW).1.messages.drop
        stW.messages.length).map Message.tool_call_id
          = tcsW.map (fun tc => some tc.id))) :=
  ⟨by decide,
   C1_batch_appends_exactly_one_result_per_call parseW [clientA, clientB] stW tcsW
     (by decide)⟩

/-! ## Claim C2 -/

/-- Claim C2: for every run of Agent.invoke, the loop terminates exactly
when a model response carries zero tool calls, and invoke then returns that
response's content field as the turn's answer. First conjunct: a
zero-tool-call response ends the loop at once, with that content and no
further dispatch. Second conjunct: whenever the loop ends, the trace of
model responses it saw consists of responses with tool calls followed by one
final response with zero tool calls, whose content is the returned answer. -/
theorem C2_loop_terminates_iff_no_tool_calls
    (parse : ParseFn) (clients : List AgentClient) :
    (∀ (script : List ApiOutcome) (st : ChatState) (resp : ChatResponse),
        resp.tool_calls = [] →
        invokeLoop parse clients script st resp =
          some { finalState := st, answer := resp.content, events := [],
                 responses := [resp] }) ∧
    (∀ (script : List ApiOutcome) (st : ChatState) (resp : ChatResponse)
        (r : LoopResult), invokeLoop parse clients script st resp = some r →
        ∃ body last, r.responses = body ++ [last] ∧
          (∀ x ∈ body, x.tool_calls ≠ []) ∧
          last.tool_calls = [] ∧ r.answer = last.content) := by
  constructor
  · intro script st resp h
    cases script <;> simp [invokeLoop, h]
  · intro script
    induction script with
    | nil =>
        intro st resp r h
        by_cases htc : resp.tool_calls.length > 0
        · simp [invokeLoop, htc] at h
        · have hnil : resp.tool_calls = [] := by
            simpa using Nat.le_zero.mp (Nat.not_lt.mp htc)
          simp [invokeLoop, htc] at h
          refine ⟨[], resp, ?_, ?_, hnil, ?_⟩
          · simp [← h]
          · simp
          · simp [← h]
    | cons o rest ih =>
        intro st resp r h
        by_cases htc : resp.tool_calls.length > 0
        · simp only [invokeLoop, htc, if_pos] at h
          rcases hrec : invokeLoop parse clients rest
              (chat (processBatch parse clients st resp.tool_calls).1 none o).1
              (chat (processBatch parse clients st resp.tool_calls).1 none o).2
            with _ | r0
          · rw [hrec] at h; simp at h
          · rw [hrec] at h
            simp only [Option.some.injEq] at h
            obtain ⟨body, last, hresp, hbody, hlast, hans⟩ := ih _ _ r0 hrec
            refine ⟨resp :: body, last, ?_, ?_, hlast, ?_⟩
            · rw [← h]; simp [hresp]
            · intro x hx
              rcases List.mem_cons.mp hx with hx1 | hx2
              · subst hx1
                intro hnil
                rw [hnil] at htc
                simp at htc
              · exact hbody x hx2
            · rw [← h]; simpa using hans
        · have hnil : resp.tool_calls = [] := by
            simpa using Nat.le_zero.mp (Nat.not_lt.mp htc)
          simp [invokeLoop, htc] at h
          refine ⟨[], resp, ?_, ?_, hnil, ?_⟩
          · simp [← h]
          · simp
          · simp [← h]

/-- Applies C2 to a one-response script: the response with zero tool calls
ends the loop at once, and its content is the returned answer. -/
theorem C2_witness :
    ({ content := some "今天北京晴天", tool_calls := [] } : ChatResponse).tool_calls
        = [] ∧
    invokeLoop parseW [clientA, clientB] [] stW
        { content := some "今天北京晴天", tool_calls := [] } =
      some { finalState := stW, answer := some "今天北京晴天", events := [],
             responses := [{ content := some "今天北京晴天", tool_calls := [] }] } ∧
    (∃ body last,
        [({ content := some "今天北京晴天", tool_calls := [] } : ChatResponse)]
          = body ++ [last] ∧
        (∀ x ∈ body, x.tool_calls ≠ []) ∧ last.tool_calls = [] ∧
        (some "今天北京晴天" : Option String) = last.content) := by
  have h := C2_loop_terminates_iff_no_tool_calls parseW [clientA, clientB]
  have h1 := h.1 [] stW { content := some "今天北京晴天", tool_calls := [] } rfl
  exact ⟨rfl, h1, h.2 [] stW { content := some "今天北京晴天", tool_calls := [] } _ h1⟩

/-! ## Claim C3 -/

theorem clientHasTool_iff (c : AgentClient) (n : String) :
    (c.tools.any (fun t => t = n) = true) ↔ n ∈ c.tools := by
  simp [List.any_eq_true]

/-- Claim C3: the agent scans the registered clients in registration order
and dispatches to the first client whose catalog contains the requested
name. First conjunct: a routed client holds the name and every client
registered before it does not. Second conjunct: when a client is routed and
the arguments parse, exactly one call_tool dispatch is issued, to that
client. Third conjunct: a name in no catalog appends the "Tool not found"
error tool result and issues no dispatch at all. Fourth conjunct: routing
fails only when no registered catalog holds the name. -/
theorem C3_first_match_wins_and_not_found :
    (∀ (clients : List AgentClient) (n : String) (c : AgentClient),
        findClient clients n = some c →
          n ∈ c.tools ∧
          ∃ pre post, clients = pre ++ c :: post ∧ ∀ c2 ∈ pre, n ∉ c2.tools) ∧
    (∀ (parse : ParseFn) (clients : List AgentClient) (st : ChatState)
        (tc : ToolCall) (c : AgentClient) (args : String),
        findClient clients tc.function.name = some c →
        parse tc.function.arguments = Except.ok args →
        (handleToolCall parse clients st tc).2 =
          [{ client := c.name, tool := tc.function.name, args := args }]) ∧
    (∀ (parse : ParseFn) (clients : List AgentClient) (st : ChatState)
        (tc : ToolCall),
        findClient clients tc.function.name = none →
        handleToolCall parse clients st tc =
          (appendToolResult st tc.id "Tool not found", [])) ∧
    (∀ (clients : List AgentClient) (n : String),
        findClient clients n = none → ∀ c ∈ clients, n ∉ c.tools) := by
  refine ⟨?_, ?_, ?_, ?_⟩
  · intro clients n
    induction clients with
    | nil => intro c h; simp [findClient] at h
    | cons c0 rest ih =>
        intro c h
        by_cases hp : c0.tools.any (fun t => t = n) = true
        · rw [findClient,
            List.find?_cons_of_pos (p := fun c => c.tools.any fun t => decide (t = n))
              rest hp] at h
          obtain rfl : c0 = c := by simpa using h
          exact ⟨(clientHasTool_iff c0 n).mp hp, [], rest, rfl, by simp⟩
        · rw [findClient,
            List.find?_cons_of_neg (p := fun c => c.tools.any fun t => decide (t = n))
              rest hp] at h
          obtain ⟨hmem, pre, post, hsplit, hpre⟩ := ih c h
          refine ⟨hmem, c0 :: pre, post, by simp [hsplit], ?_⟩
          intro c2 hc2
          rcases List.mem_cons.mp hc2 with hc2 | hc2
          · subst hc2
            exact fun hmem2 => hp ((clientHasTool_iff c2 n).mpr hmem2)
          · exact hpre c2 hc2
  · intro parse clients st tc c args hf hp
    rw [handleToolCall_eq]
    simp [dispatchesFor, hf, hp]
  · intro parse clients st tc hf
    rw [handleToolCall_eq]
    simp [dispatchesFor, toolResultText, hf]
  · intro clients n h c hc hmem
    rw [findClient, List.find?_eq_none] at h
    exact h c hc ((clientHasTool_iff c n).mpr hmem)

/-- Applies C3 to the registration order [clientA, clientB]: the name
searchB, present only in B's catalog, routes and dispatches to B; the name
nosuch, present in neither, yields the "Tool not found" result with zero
dispatches. -/
theorem C3_witness :
    findClient [clientA, clientB] "searchB" = some clientB ∧
    ("searchB" ∈ clientB.tools ∧
      ∃ pre post, [clientA, clientB] = pre ++ clientB :: post ∧
        ∀ c2 ∈ pre, "searchB" ∉ c2.tools) ∧
    (handleToolCall parseW [clientA, clientB] stW tcB).2 =
      [{ client := clientB.name, tool := tcB.function.name, args := "argsB" }] ∧
    handleToolCall parseW [clientA, clientB] stW tcMissing =
      (appendToolResult stW tcMissing.id "Tool not found", []) ∧
    "nosuch" ∉ clientA.tools := by
  have h := C3_first_match_wins_and_not_found
  refine ⟨by rfl, h.1 [clientA, clientB] "searchB" clientB (by rfl),
    h.2.1 parseW [clientA, clientB] stW tcB clientB "argsB" (by rfl) (by rfl),
    h.2.2.1 parseW [clientA, clientB] stW tcMissing (by rfl),
    h.2.2.2 [clientA, clientB] "nosuch" (by rfl) clientA (by simp)⟩

/-! ## Claim C4 -/

/-- Claim C4 counterexample: the claim says a model-call failure is fatal
for the turn and propagates as an error to Agent.invoke's caller, not folded
into the conversation as ordinary content. On the code it is false:
ChatOpenAI.chat catches every exception of the completion request (lines
163-165) and returns a normal response dict whose content is
"Error: " ++ e with zero tool calls, so the loop terminates normally and
Agent.invoke returns that text as the turn's answer. Concretely, with a
model whose single invocation raises "boom", invoke returns the ordinary
answer "Error: boom" instead of raising. -/
theorem C4_counterexample :
    invoke parseW [clientA, clientB] [ApiOutcome.fail "boom"]
        { messages := [] } "hi" =
      some { finalState := { messages := [userMsg "hi"] },
             answer := some "Error: boom", events := [],
             responses := [{ content := some "Error: boom", tool_calls := [] }] } := by
  rfl

/-- Claim C4 as amended: a model-call failure is caught inside the chat
adapter and converted into a normal response whose content is
"Error: " ++ e with an empty tool-call list; no assistant message is
appended to history on that path, the loop is not retried, and Agent.invoke
returns that error text as the turn's ordinary answer. -/
theorem C4_amended_model_failure_returned_as_content
    (parse : ParseFn) (clients : List AgentClient) (st : ChatState)
    (p e : String) (script : List ApiOutcome) :
    chat st (some p) (ApiOutcome.fail e) =
      ({ st with messages := st.messages ++ [userMsg p] },
       { content := some ("Error: " ++ e), tool_calls := [] }) ∧
    invoke parse clients (ApiOutcome.fail e :: script) st p =
      some { finalState := { st with messages := st.messages ++ [userMsg p] },
             answer := some ("Error: " ++ e), events := [],
             responses := [{ content := some ("Error: " ++ e), tool_calls := [] }] } := by
  constructor
  · rfl
  · show invokeLoop parse clients script
        { st with messages := st.messages ++ [userMsg p] }
        { content := some ("Error: " ++ e), tool_calls := [] } = _
    cases script <;> simp [invokeLoop]

/-! ## Claim C5 -/

theorem assocRemove_assocSet_fresh {α : Type} (l : List (String × α)) (k : String)
    (hk : assocGet l k = none) (v : α) :
    assocRemove (assocSet l k v) k = l := by
  induction l with
  | nil => simp [assocSet, assocRemove]
  | cons kv rest ih =>
      obtain ⟨k1, v1⟩ := kv
      by_cases hkk : k1 = k
      · simp [assocGet, hkk] at hk
      · simp only [assocGet, hkk, if_neg, if_false] at hk
        simp [assocSet, assocRemove, hkk, ih hk]

/-- Claim C5: a call_tool invocation on a connected client whose provider
never responds fails with the timeout error after the deadline (modelled as
the timedOut await outcome), the pending waiter for that correlation id is
removed from response_futures — the table is exactly as before the call —
and a tool_response arriving for that id afterwards is dropped by the
dispatch loop: it changes nothing and raises nothing. -/
theorem C5_timeout_removes_waiter_and_drops_late_response
    (st : WSState) (rid tool params v : String)
    (hc : st.is_connected = true) (hw : st.websocket = true)
    (hfresh : assocGet st.response_futures rid = none) :
    (WS.call_tool st rid tool params AwaitOutcome.timedOut).2 =
      Except.error (MCPError.toolTimeout tool) ∧
    (WS.call_tool st rid tool params AwaitOutcome.timedOut).1.response_futures =
      st.response_futures ∧
    assocGet
      (WS.call_tool st rid tool params AwaitOutcome.timedOut).1.response_futures
      rid = none ∧
    WS.handleMessage (WS.call_tool st rid tool params AwaitOutcome.timedOut).1
        (WireMsg.tool_response rid v) =
      (WS.call_tool st rid tool params AwaitOutcome.timedOut).1 := by
  have hcall : WS.call_tool st rid tool params AwaitOutcome.timedOut =
      ({ st with sent := st.sent ++ [WireMsg.tool_call rid tool params] },
       Except.error (MCPError.toolTimeout tool)) := by
    simp [WS.call_tool, WS.callToolSend, WS.callToolFinish, hc, hw,
      assocRemove_assocSet_fresh st.response_futures rid hfresh]
  rw [hcall]
  refine ⟨rfl, rfl, hfresh, ?_⟩
  simp [WS.handleMessage, hfresh]

/-- Applies C5 to a freshly connected client and correlation id r1. -/
theorem C5_witness :
    ((WS.connect initialWSState ConnectOutcome.ok).1.is_connected = true ∧
     (WS.connect initialWSState ConnectOutcome.ok).1.websocket = true ∧
     assocGet (WS.connect initialWSState ConnectOutcome.ok).1.response_futures
       "r1" = none) ∧
    ((WS.call_tool (WS.connect initialWSState ConnectOutcome.ok).1 "r1"
        "get_weather" "beijing" AwaitOutcome.timedOut).2 =
      Except.error (MCPError.toolTimeout "get_weather") ∧
     (WS.call_tool (WS.connect initialWSState ConnectOutcome.ok).1 "r1"
        "get_weather" "beijing" AwaitOutcome.timedOut).1.response_futures =
      (WS.connect initialWSState ConnectOutcome.ok).1.response_futures ∧
     assocGet (WS.call_tool (WS.connect initialWSState ConnectOutcome.ok).1 "r1"
        "get_weather" "beijing" AwaitOutcome.timedOut).1.response_futures
       "r1" = none ∧
     WS.handleMessage
        (WS.call_tool (WS.connect initialWSState ConnectOutcome.ok).1 "r1"
          "get_weather" "beijing" AwaitOutcome.timedOut).1
        (WireMsg.tool_response "r1" "sunny") =
      (WS.call_tool (WS.connect initialWSState ConnectOutcome.ok).1 "r1"
        "get_weather" "beijing" AwaitOutcome.timedOut).1) :=
  ⟨⟨by decide, by decide, by decide⟩,
   C5_timeout_removes_waiter_and_drops_late_response
     (WS.connect initialWSState ConnectOutcome.ok).1 "r1" "get_weather" "beijing"
     "sunny" (by decide) (by decide) (by decide)⟩

/-! ## Claim C6 -/

/-- Gives a connected client with one pending waiter for id r1, exactly the
state of mcp_client.py while a call_tool caller is suspended awaiting. -/
def stPendingW : WSState :=
  (WS.callToolSend (WS.connect initialWSState ConnectOutcome.ok).1
    "r1" "get_weather" "beijing").1

/-- Claim C6 counterexample: the claim says disconnect rejects every
still-pending waiter with a ClosedError, so connect/close cycles leave zero
residual pending waiters. On the code it is false: disconnect (mcp_client.py
lines 51-62) cancels the heartbeat and closes the channel but never touches
response_futures. Concretely, on a connected client with the pending waiter
r1, disconnect leaves the table unchanged and r1 still pending — and it is
still pending after a further connect/close cycle. -/
theorem C6_counterexample :
    assocGet stPendingW.response_futures "r1" = some Future.pending ∧
    (WS.disconnect stPendingW).response_futures = stPendingW.response_futures ∧
    assocGet (WS.disconnect stPendingW).response_futures "r1" =
      some Future.pending ∧
    assocGet (WS.disconnect
        ((WS.connect (WS.disconnect stPendingW) ConnectOutcome.ok).1)).response_futures
      "r1" = some Future.pending := by
  decide

/-- Claim C6 as amended: disconnect on a connected client cancels the
heartbeat task, releases the channel and clears the connection flag, and a
second disconnect is a no-op; but it leaves the pending-request table (and
the stream-handler table) untouched, so waiters still pending at close
remain pending rather than being rejected with a ClosedError. -/
theorem C6_amended_close_releases_channel_but_keeps_waiters
    (st : WSState) (h : st.is_connected = true ∧ st.websocket = true) :
    WS.disconnect st =
      { st with heartbeat_task := false, websocket := false,
                is_connected := false } ∧
    (WS.disconnect st).response_futures = st.response_futures ∧
    (WS.disconnect st).stream_handlers = st.stream_handlers ∧
    WS.disconnect (WS.disconnect st) = WS.disconnect st := by
  obtain ⟨hc, hw⟩ := h
  refine ⟨?_, ?_, ?_, ?_⟩ <;> simp [WS.disconnect, hc, hw]

/-- Applies the amended C6 to the connected client holding pending waiter
r1. -/
theorem C6_witness :
    (stPendingW.is_connected = true ∧ stPendingW.websocket = true) ∧
    (WS.disconnect stPendingW =
      { stPendingW with heartbeat_task := false, websocket := false,
                        is_connected := false } ∧
     (WS.disconnect stPendingW).response_futures = stPendingW.response_futures ∧
     (WS.disconnect stPendingW).stream_handlers = stPendingW.stream_handlers ∧
     WS.disconnect (WS.disconnect stPendingW) = WS.disconnect stPendingW) :=
  ⟨⟨by decide, by decide⟩,
   C6_amended_close_releases_channel_but_keeps_waiters stPendingW
     ⟨by decide, by decide⟩⟩

/-! ## Claim C7 -/

/-- Claim C7 counterexample: the claim says connect performs a handshake
retrieving the provider's tool catalog and fails with a ConnectionError
raised to the caller. For the websocket client it is false: connect
(mcp_client.py lines 28-49) catches any channel failure and reports it via
the return value False — the embedding is a total function into
WSState × Bool because the source raises nothing — and sends no handshake
frame at all, even on success, so no catalog is retrieved. -/
theorem C7_counterexample :
    WS.connect initialWSState (ConnectOutcome.fail "connection refused") =
      ({ initialWSState with is_connected := false }, false) ∧
    (WS.connect initialWSState ConnectOutcome.ok).1.sent = [] := by
  decide

/-- Claim C7 as amended: the stdio client's init closes any prior session,
establishes the session and retrieves the tool catalog, and re-raises any
setup error to the caller after cleaning up its exit stack; the websocket
client's connect establishes only the channel, reports failure by returning
False rather than raising, and performs no handshake (no frame is sent). -/
theorem C7_amended_connect_split_behaviour
    (stw : WSState) (st : StdioState) (catalog : List String) (e f : String) :
    Stdio.init st (StdioOutcome.ok catalog) =
      ({ exit_stack := true, tools := catalog }, Except.ok ()) ∧
    Stdio.init st (StdioOutcome.fail e) =
      ({ exit_stack := false, tools := st.tools }, Except.error e) ∧
    WS.connect stw (ConnectOutcome.fail f) =
      ({ stw with is_connected := false }, false) ∧
    (WS.connect stw ConnectOutcome.ok).1.sent = stw.sent := by
  refine ⟨?_, ?_, rfl, rfl⟩ <;>
    cases hs : st.exit_stack <;>
      simp [Stdio.init, Stdio.close, Stdio.connect_to_server, hs]

/-! ## Claim C8 -/

/-- Claim C8: for every tool call whose raw argument string is not
parseable, the agent appends a tool result whose text carries the
parse-error description, issues no dispatch, does not abort the turn, and
still re-invokes the model with the updated history: the loop step consumes
the next scripted model outcome on the history extended with the
parse-error tool result. -/
theorem C8_parse_error_recovers_and_model_reinvoked
    (parse : ParseFn) (clients : List AgentClient) (st : ChatState)
    (tc : ToolCall) (c : AgentClient) (e : String) (cnt : Option String)
    (o : ApiOutcome) (rest : List ApiOutcome)
    (hfind : findClient clients tc.function.name = some c)
    (hparse : parse tc.function.arguments = Except.error e) :
    handleToolCall parse clients st tc =
      (appendToolResult st tc.id ("Invalid JSON arguments: " ++ e), []) ∧
    invokeLoop parse clients (o :: rest) st
        { content := cnt, tool_calls := [tc] } =
      (let st1 := appendToolResult st tc.id ("Invalid JSON arguments: " ++ e)
       let next := chat st1 none o
       match invokeLoop parse clients rest next.1 next.2 with
       | none => none
       | some r =>
           some { r with
             responses := { content := cnt, tool_calls := [tc] } :: r.responses }) := by
  have hh : handleToolCall parse clients st tc =
      (appendToolResult st tc.id ("Invalid JSON arguments: " ++ e), []) := by
    rw [handleToolCall_eq]
    simp [toolResultText, dispatchesFor, hfind, hparse]
  have hb : processBatch parse clients st [tc] =
      (appendToolResult st tc.id ("Invalid JSON arguments: " ++ e), []) := by
    simp [processBatch, hh]
  refine ⟨hh, ?_⟩
  simp only [invokeLoop, hb]
  norm_num

/-- Applies C8 to the tool call tcBad, whose arguments "bad" fail parseW,
routed to clientB, with one further scripted model outcome. -/
theorem C8_witness :
    (findClient [clientA, clientB] tcBad.function.name = some clientB ∧
     parseW tcBad.function.arguments = Except.error "Expecting value") ∧
    (handleToolCall parseW [clientA, clientB] stW tcBad =
      (appendToolResult stW tcBad.id
        ("Invalid JSON arguments: " ++ "Expecting value"), []) ∧
     invokeLoop parseW [clientA, clientB] [ApiOutcome.ok (some "done") []] stW
        { content := none, tool_calls := [tcBad] } =
       (let st1 := appendToolResult stW tcBad.id
          ("Invalid JSON arguments: " ++ "Expecting value")
        let next := chat st1 none (ApiOutcome.ok (some "done") [])
        match invokeLoop parseW [clientA, clientB] [] next.1 next.2 with
        | none => none
        | some r =>
            some { r with
              responses :=
                { content := none, tool_calls := [tcBad] } :: r.responses })) :=
  ⟨⟨by rfl, by rfl⟩,
   C8_parse_error_recovers_and_model_reinvoked parseW [clientA, clientB] stW
     tcBad clientB "Expecting value" none (ApiOutcome.ok (some "done") []) []
     (by rfl) (by rfl)⟩

/-! ## Claim C9 -/

/-- Claim C9 counterexample: the claim says every chat invocation appends
exactly one assistant response message to the history, on every path
including API failure. On the code it is false: the except branch of
ChatOpenAI.chat (lines 163-165) returns before the assistant append of
lines 136-139 runs. Concretely, a failing invocation on an empty history
with prompt "hi" leaves the history holding only the user message — no
assistant message was appended. -/
theorem C9_counterexample :
    (chat { messages := [] } (some "hi") (ApiOutcome.fail "boom")).1.messages =
      [userMsg "hi"] := by
  decide

/-- Claim C9 as amended: chat preserves the order of the existing history
on every path; on API success it appends exactly one assistant response
message (after the user message when a prompt is supplied); on API failure
it appends no response message — the history gains only the optional user
message. -/
theorem C9_amended_one_assistant_on_success_none_on_failure
    (st : ChatState) (p e : String) (cnt : Option String) (tcs : List ToolCall) :
    (chat st (some p) (ApiOutcome.ok cnt tcs)).1.messages =
      st.messages ++ [userMsg p,
        { role := "assistant", content := cnt.getD "", tool_calls := tcs }] ∧
    (chat st none (ApiOutcome.ok cnt tcs)).1.messages =
      st.messages ++
        [{ role := "assistant", content := cnt.getD "", tool_calls := tcs }] ∧
    (chat st (some p) (ApiOutcome.fail e)).1.messages =
      st.messages ++ [userMsg p] ∧
    (chat st none (ApiOutcome.fail e)).1.messages = st.messages := by
  refine ⟨?_, rfl, rfl, rfl⟩
  simp [chat]

/-! ## Claim C10 -/

/-- Claim C10: cancel_stream on a client that is not connected returns
False, sends nothing, and leaves the stream-handler table unchanged; the
handler is removed only on the connected path, where the cancel frame is
sent and True returned. -/
theorem C10_cancel_stream_disconnected_is_noop
    (st : WSState) (sid : String)
    (h : st.is_connected = false ∨ st.websocket = false) :
    WS.cancel_stream st sid = (st, false) ∧
    (WS.cancel_stream st sid).1.stream_handlers = st.stream_handlers ∧
    (WS.cancel_stream st sid).1.sent = st.sent ∧
    (∀ st2 : WSState, st2.is_connected = true → st2.websocket = true →
        WS.cancel_stream st2 sid =
          ({ st2 with sent := st2.sent ++ [WireMsg.cancel_stream sid],
                      stream_handlers := assocRemove st2.stream_handlers sid },
           true)) := by
  have hcond : (st.is_connected && st.websocket) = false := by
    rcases h with h | h <;> simp [h]
  refine ⟨?_, ?_, ?_, ?_⟩
  · simp [WS.cancel_stream, hcond]
  · simp [WS.cancel_stream, hcond]
  · simp [WS.cancel_stream, hcond]
  · intro st2 hc hw
    simp [WS.cancel_stream, hc, hw]

/-- Gives a client that registered stream handler s1 while connected and
was then disconnected. -/
def stStreamW : WSState :=
  WS.disconnect (WS.stream_tool_calls (WS.connect initialWSState ConnectOutcome.ok).1
    "s1" "streamer" "argstream" 7).1

/-- Applies C10 to the disconnected client stStreamW holding handler s1:
the cancel returns False and s1 stays registered; and applies the
connected-path conjunct to the connected client stPendingW. -/
theorem C10_witness :
    (stStreamW.is_connected = false ∨ stStreamW.websocket = false) ∧
    assocGet stStreamW.stream_handlers "s1" = some 7 ∧
    (WS.cancel_stream stStreamW "s1" = (stStreamW, false) ∧
     (WS.cancel_stream stStreamW "s1").1.stream_handlers =
       stStreamW.stream_handlers ∧
     (WS.cancel_stream stStreamW "s1").1.sent = stStreamW.sent) ∧
    assocGet (WS.cancel_stream stStreamW "s1").1.stream_handlers "s1" = some 7 ∧
    WS.cancel_stream stPendingW "s1" =
      ({ stPendingW with
          sent := stPendingW.sent ++ [WireMsg.cancel_stream "s1"],
          stream_handlers := assocRemove stPendingW.stream_handlers "s1" },
       true) := by
  have h := C10_cancel_stream_disconnected_is_noop stStreamW "s1"
    (Or.inl (by decide))
  exact ⟨Or.inl (by decide), by decide, ⟨h.1, h.2.1, h.2.2.1⟩, by decide,
    h.2.2.2 stPendingW (by decide) (by decide)⟩

end MCPTx
